import Mathlib

/-!
# Verification of `src/utils/create_user.py` (omniport-shell)

A shallow embedding of the profile-importer utilities of the omniport-shell
repository.  Python dictionaries coming from the ACAD API are modelled as
association lists from `String` to `String`; Python exceptions are modelled
with `Except PyError`; the relational store is an explicit `DB` value threaded
through the functions.  Library string operations (`replace`, `split`,
`strip`, `title`, `upper`, `lower`) are re-implemented structurally over
`List Char` so that every definition evaluates inside the kernel.
-/

/-- Python exception classes that the embedded code can raise. -/
inductive PyError where
  | keyError : PyError
  | valueError : String → PyError
  | typeError : PyError
  | indexError : PyError
  | doesNotExist : PyError
deriving DecidableEq, Repr

instance {ε α : Type} [DecidableEq ε] [DecidableEq α] : DecidableEq (Except ε α) :=
  fun x y =>
  match x, y with
  | .ok a, .ok b =>
    if h : a = b then .isTrue (congrArg Except.ok h)
    else .isFalse (fun hh => h (Except.ok.inj hh))
  | .error e, .error f =>
    if h : e = f then .isTrue (congrArg Except.error h)
    else .isFalse (fun hh => h (Except.error.inj hh))
  | .ok _, .error _ => .isFalse (fun hh => Except.noConfusion hh)
  | .error _, .ok _ => .isFalse (fun hh => Except.noConfusion hh)

/-! ## Python string primitives -/

/-- Does `pat` occur at the head of `s`? (helper for `replace`/`startswith`). -/
def headMatches : List Char → List Char → Bool
  | [], _ => true
  | _ :: _, [] => false
  | p :: ps, c :: cs => p == c && headMatches ps cs

/-- Fuel-driven core of Python `s.replace(pat, '')`: removes every
non-overlapping occurrence of `pat`, scanning left to right. -/
def removeAllFuel (pat : List Char) : Nat → List Char → List Char
  | _, [] => []
  | 0, s => s
  | fuel + 1, c :: cs =>
    if headMatches pat (c :: cs) then
      removeAllFuel pat fuel (List.drop (pat.length - 1) cs)
    else
      c :: removeAllFuel pat fuel cs

/-- Python `s.replace(pat, '')` (the only form of `replace` used in the
source: the replacement string is always empty). -/
def pyRemove (pat : String) (s : String) : String :=
  ⟨removeAllFuel pat.data s.data.length s.data⟩

/-- Core of Python `s.split(sep)` for a one-character separator. -/
def splitCharAux (sep : Char) : List Char → List Char → List String
  | [], acc => [⟨acc.reverse⟩]
  | c :: cs, acc =>
    if c == sep then ⟨acc.reverse⟩ :: splitCharAux sep cs []
    else splitCharAux sep cs (c :: acc)

/-- Python `s.split(sep)` for a one-character separator (every separator in
the source — `'@'`, `'T'`, `'-'`, `':'` — is a single character). -/
def pySplitChar (sep : Char) (s : String) : List String :=
  splitCharAux sep s.data []

/-- Drop the characters satisfying `p` from both ends of a list. -/
def dropBoth (p : Char → Bool) (l : List Char) : List Char :=
  ((l.dropWhile p).reverse.dropWhile p).reverse

/-- Python `s.strip('.')`: dots removed from both ends. -/
def stripDots (s : String) : String :=
  ⟨dropBoth (fun c => c == '.') s.data⟩

/-- Python `s.strip()`: whitespace removed from both ends. -/
def pyStrip (s : String) : String :=
  ⟨dropBoth Char.isWhitespace s.data⟩

/-- Python `s.lower()` (ASCII, as in the data handled by the importer). -/
def pyLower (s : String) : String :=
  ⟨s.data.map Char.toLower⟩

/-- Python `s.upper()`. -/
def pyUpper (s : String) : String :=
  ⟨s.data.map Char.toUpper⟩

/-- Python `s.startswith(p)`. -/
def pyStartsWith (p : String) (s : String) : Bool :=
  headMatches p.data s.data

/-- Python `str.title()`: the first letter of every alphabetic run is
upper-cased, the rest lower-cased. -/
def pyTitleAux : List Char → Bool → List Char
  | [], _ => []
  | c :: cs, prevAlpha =>
    let c2 := if c.isAlpha then (if prevAlpha then c.toLower else c.toUpper) else c
    c2 :: pyTitleAux cs c.isAlpha

/-- Python `s.title()`. -/
def pyTitle (s : String) : String :=
  ⟨pyTitleAux s.data false⟩

/-- Python `x or y` for strings: the empty string is falsy. -/
def pyOr (s t : String) : String :=
  if s = "" then t else s

/-- Python `int(s)` (digit strings only, as produced by the ACAD API). -/
def pyInt (s : String) : Except PyError Int :=
  if !s.data.isEmpty && s.data.all Char.isDigit then
    .ok (s.data.foldl (fun n c => n * 10 + ((c.toNat : Int) - 48)) 0)
  else
    .error (.valueError "invalid literal for int")

/-- Python `s[i]`: raises `IndexError` when out of range. -/
def strAt (s : String) (i : Nat) : Except PyError Char :=
  match s.data.get? i with
  | some c => .ok c
  | none => .error .indexError

/-! ## The ACAD record (a Python dict of strings) -/

/-- A record from the ACAD API: a dictionary with string keys and values. -/
abbrev Details := List (String × String)

/-- Python `d.get(k)` / `d.get(k, None)`. -/
def dget (d : Details) (k : String) : Option String :=
  (d.find? (fun kv => kv.1 == k)).map (fun kv => kv.2)

/-- Python `d.get(k, default)` with a string default. -/
def dgetD (d : Details) (k : String) (dflt : String) : String :=
  (dget d k).getD dflt

/-- Python `d[k]`: raises `KeyError` when the key is absent. -/
def ditem (d : Details) (k : String) : Except PyError String :=
  match dget d k with
  | some v => .ok v
  | none => .error .keyError

/-- Python truthiness of `d.get(k, False)` for string values:
`False` when the key is absent or the value is the empty string. -/
def pyTruthy (o : Option String) : Bool :=
  match o with
  | some s => !s.data.isEmpty
  | none => false

/-- Lookup in a static table dict (`CATEGORIES.get`, etc.). -/
def dictGet (tbl : List (String × String)) (k : String) : Option String :=
  (tbl.find? (fun kv => kv.1 == k)).map (fun kv => kv.2)

/-! ## Data model -/

/-- `base_auth.models.User`: a credential record keyed by username. -/
structure User where
  username : Option String
deriving DecidableEq, Repr

/-- `Person`: identity anchor with a full name, an optional linked user and
a list of linked parent names. -/
structure Person where
  user : Option User
  full_name : String
  parents : List String
deriving DecidableEq, Repr

/-- `Student` role record (guardian linkage is recorded on the `Person`). -/
structure Student where
  start_date : Nat × Nat × Nat
  person : String
  enrolment_number : Int
  branch : String
  current_year : Int
  current_semester : Int
deriving DecidableEq, Repr

/-- The relational store visible to the importer. -/
structure DB where
  users : List User := []
  persons : List Person := []
  branches : List String := []
  students : List Student := []
deriving DecidableEq, Repr

/-- `User.objects.get_or_create(username=u)`. -/
def userGetOrCreate (db : DB) (u : Option String) : User × DB :=
  match db.users.find? (fun x => x.username == u) with
  | some user => (user, db)
  | none =>
    let user : User := ⟨u⟩
    (user, { db with users := db.users ++ [user] })

/-- `Person.objects.get_or_create(user=user, full_name=n)`. -/
def personGetOrCreate (db : DB) (user : User) (n : String) : Person × DB :=
  match db.persons.find? (fun x => x.user == some user && x.full_name == n) with
  | some p => (p, db)
  | none =>
    let p : Person := ⟨some user, n, []⟩
    (p, { db with persons := db.persons ++ [p] })

/-- `Person.objects.create(full_name=n)` (used for guardians). -/
def personCreate (db : DB) (n : String) : Person × DB :=
  let p : Person := ⟨none, n, []⟩
  (p, { db with persons := db.persons ++ [p] })

/-- `Branch.objects.get(code=c)`: raises `DoesNotExist` when absent. -/
def branchGet (db : DB) (code : String) : Except PyError String :=
  if code ∈ db.branches then .ok code else .error .doesNotExist

/-! ## `create_user` -/

/-- The faculty username derivation of `create_user` (lines 21–28):
strip `iitr.ac.in` from the institute email, split on `'@'`; when the split
produced more than one part, take the local part alone if the remainder is
empty, otherwise rejoin the two parts with a literal `'f'`, stripping dots
from the remainder; when the split produced a single part, keep the
`username` argument unchanged. -/
def deriveUsername (username : Option String) (acad_data : Details) : Option String :=
  let uname := pyRemove "iitr.ac.in" (dgetD acad_data "IITREmailID" "")
  let parts := pySplitChar '@' uname
  if 1 < parts.length then
    if parts.getD 1 "" = "" then some (parts.getD 0 "")
    else some (parts.getD 0 "" ++ "f" ++ stripDots (parts.getD 1 ""))
  else username

/-- `create_user(username, is_faculty, acad_data)`: for faculty the username
is derived from the institute email and validated (`None` or longer than 15
characters raises `ValueError` before any record is touched); then user and
person are got-or-created.  The resulting store is returned alongside the
outcome. -/
def create_user (username : Option String) (is_faculty : Bool) (acad_data : Details)
    (db : DB) : Except PyError (User × Person) × DB :=
  let username := if is_faculty then deriveUsername username acad_data else username
  if is_faculty = true ∧ (username = none ∨ 15 < (username.getD "").length) then
    (.error (.valueError "Username could not be fetched"), db)
  else
    let (user, db) := userGetOrCreate db username
    match dget acad_data "Name" with
    | none => (.error .keyError, db)
    | some nm =>
      let (person, db) := personGetOrCreate db user (pyTitle nm)
      (.ok (user, person), db)

/-! ## `create_student` -/

/-- Subscripting a Django model instance — `student['Fathersname']` in the
source — raises `TypeError`: model objects do not implement item access.
The guardian block of `create_student` subscripts the freshly built
`Student` object instead of the `data` dict. -/
def Student.getItem (_ : Student) (_ : String) : Except PyError String :=
  .error .typeError

/-- `int(sem_id[1])`: the year digit of the semester code (character at
index 1; `IndexError` on short codes, `ValueError` on a non-digit). -/
def semYear (sem_id : String) : Except PyError Int := do
  let yc ← strAt sem_id 1
  pyInt ⟨[yc]⟩

/-- `int(sem_id[2])`: the half-of-year digit of the semester code. -/
def semHalf (sem_id : String) : Except PyError Int := do
  let hc ← strAt sem_id 2
  pyInt ⟨[hc]⟩

/-- `create_student(data, person_object)`: builds the `Student` role record
from the ACAD data (`current_year` from the character at index 1 of the
semester code, `current_semester` from the formula on the digits at indices
1 and 2), then best-effort attempts the guardian block (which subscripts the
`Student` object and therefore always fails before any `Person` is created),
and finally saves the student.  `today` stands for `datetime.datetime.now()`. -/
def create_student (today : Nat × Nat × Nat) (data : Details) (person_object : Person)
    (db : DB) : Except PyError (Student × Person × DB) := do
  let sem_id ← ditem data "SemesterID"
  let enrolS ← ditem data "EnrollmentNo"
  let enrol ← pyInt enrolS
  let progId ← ditem data "ProgramID"
  let branch ← branchGet db progId
  let y ← semYear sem_id
  let hh ← semHalf sem_id
  let student : Student :=
    ⟨today, person_object.full_name, enrol, branch, y, (y - 1) * 2 + hh + 1⟩
  -- try: the two subscripts precede every Person creation, and the first
  -- one already raises, so the except branch leaves person and store alone
  let (person_object, db) :=
    match (do
        let fn ← Student.getItem student "Fathersname"
        let mn ← Student.getItem student "MotherName"
        pure (fn, mn) : Except PyError (String × String)) with
    | .ok (fn, mn) =>
      let (father, db) := personCreate db (pyTitle fn)
      let (mother, db) := personCreate db (pyTitle mn)
      let p := { person_object with
        parents := person_object.parents ++ [father.full_name, mother.full_name] }
      (p, db)
    | .error _ => (person_object, db)
  let db := { db with students := db.students ++ [student] }
  pure (student, person_object, db)

/-! ## Sub-profile records -/

/-- `formula_one` LocationInformation. -/
structure LocationInformation where
  entity : String
  address : String := ""
  state : String := ""
  city : String := ""
  country : String := ""
deriving DecidableEq, Repr

/-- `formula_one` ContactInformation. -/
structure ContactInformation where
  entity : String
  primary_phone_number : Option String := none
  secondary_phone_number : Option String := none
  email_address : Option String := none
  institute_webmail_address : Option String := none
deriving DecidableEq, Repr

/-- `shell` PoliticalInformation. -/
structure PoliticalInformation where
  person : String
  nationality : String
  religion : String
  reservation_category : String
deriving DecidableEq, Repr

/-- `shell` BiologicalInformation. -/
structure BiologicalInformation where
  person : String
  date_of_birth : Nat × Nat × Nat
  blood_group : String
  sex : String
  gender : String
  pronoun : String
  impairment : String
deriving DecidableEq, Repr

/-- `shell` FinancialInformation. -/
structure FinancialInformation where
  person : String
deriving DecidableEq, Repr

/-- `shell` ResidentialInformation (the residence stored by code). -/
structure ResidentialInformation where
  person : String
  residence : String
  room_number : String
deriving DecidableEq, Repr

/-! ## `populate_location_info` / `populate_contact_info` -/

/-- The nationality string used for the country lookups:
`details.get('Nationality', '') or details.get('Pcountry', '') or ''`. -/
def locNationality (d : Details) : String :=
  pyOr (pyOr (dgetD d "Nationality" "") (dgetD d "Pcountry" "")) ""

/-- The country loop of the source over `django_countries` `COUNTRIES`
(passed in as an association list of code/name pairs): the first country
whose name matches case-insensitively wins, default `"IN"`. -/
def countryLookup (countries : List (String × String)) (nationality : String) : String :=
  match countries.find? (fun cv => pyLower cv.2 == pyLower nationality) with
  | some cv => cv.1
  | none => "IN"

/-- The body of the `try` of `populate_location_info`: field assignments and
the save.  In this model the save always succeeds. -/
def locBody (countries : List (String × String)) (li : LocationInformation)
    (d : Details) : Except PyError LocationInformation := do
  let country_code := countryLookup countries (locNationality d)
  pure { li with
    address := pyOr (dgetD d "PermanentAddress" "") ""
    state := pyOr (dgetD d "State" "") ""
    city := pyOr (dgetD d "City" "") ""
    country := country_code }

/-- `populate_location_info(location_information, details)`: runs the body
under `try`, returning the saved record and `True`, or the untouched record
and `False` when the body raised. -/
def populate_location_info (countries : List (String × String))
    (li : LocationInformation) (d : Details) : LocationInformation × Bool :=
  match locBody countries li d with
  | .ok li2 => (li2, true)
  | .error _ => (li, false)

/-- The body of the `try` of `populate_contact_info`.  Mirrors the source
order: `details['EmailID']` is read first, and `details['IITREmailID']` is
evaluated unconditionally as the default argument of the `PRIEMAIL` lookup —
before the lookup itself happens. -/
def contactBody (ci : ContactInformation) (d : Details) :
    Except PyError ContactInformation := do
  let primary := dget d "Mobileno"
  let secondary := dget d "ContactNo"
  let email ← ditem d "EmailID"
  let iitrDefault ← ditem d "IITREmailID"
  let webmail := (dget d "PRIEMAIL").getD iitrDefault
  pure { ci with
    primary_phone_number := primary
    secondary_phone_number := secondary
    email_address := some email
    institute_webmail_address := some webmail }

/-- `populate_contact_info(contact_information, details)`: `try` wrapper
around `contactBody`; on failure nothing is saved and `False` returned. -/
def populate_contact_info (ci : ContactInformation) (d : Details) :
    ContactInformation × Bool :=
  match contactBody ci d with
  | .ok ci2 => (ci2, true)
  | .error _ => (ci, false)

/-! ## `populate_details` -/

/-- The LocationInfo block of `populate_details`: create the record, then
populate it (the boolean result of the populate call is discarded). -/
def locationBlock (countries : List (String × String)) (p : Person) (d : Details) :
    Except PyError LocationInformation :=
  pure (populate_location_info countries { entity := p.full_name } d).1

/-- The ContactInfo block of `populate_details`. -/
def contactBlock (p : Person) (d : Details) : Except PyError ContactInformation :=
  pure (populate_contact_info { entity := p.full_name } d).1

/-- The PoliticalInfo block of `populate_details`.  `categories` stands for
the static `CATEGORIES` dict of `pseudoc.constants`; the inner `try` of the
source cannot raise in this model, so the defaults `"oth"`/`"IN"` are the
fall-through values of the lookups. -/
def politicalBlock (countries categories : List (String × String)) (p : Person)
    (d : Details) : Except PyError PoliticalInformation :=
  let category_code := (dictGet categories (dgetD d "Category" "other")).getD "oth"
  let country_code := countryLookup countries (locNationality d)
  pure { person := p.full_name
         nationality := country_code
         religion := pyTitle (pyOr (dgetD d "Religion" "") "")
         reservation_category := category_code }

/-- The eight valid blood groups of the source. -/
def allBloodGroups : List String :=
  ["O+", "O-", "A+", "A-", "B+", "B-", "AB+", "AB-"]

/-- The normalisation applied to the `BloodGroup` field:
`(x or 'O+').upper().strip().replace(' ', '')`. -/
def normalizeBG (v : String) : String :=
  pyRemove " " (pyStrip (pyUpper (pyOr v "O+")))

/-- The blood group stored by the BiologicalInfo block: the normalised field
value when it is one of the eight valid groups, `"O+"` otherwise (also when
the field is absent, in which case the default `'O+'` flows through). -/
def bloodGroupOf (d : Details) : String :=
  let bg := normalizeBG (dgetD d "BloodGroup" "O+")
  if bg ∈ allBloodGroups then bg else "O+"

/-- The `sex` stored by the BiologicalInfo block. -/
def bioSex (d : Details) : String :=
  if pyTruthy (dget d "Gender") then pyLower (dgetD d "Gender" "") else "male"

/-- The `gender` stored by the BiologicalInfo block. -/
def bioGender (d : Details) : String :=
  if pyTruthy (dget d "Gender") && pyStartsWith "f" (pyLower (dgetD d "Gender" ""))
  then "woman" else "man"

/-- The `pronoun` stored by the BiologicalInfo block. -/
def bioPronoun (d : Details) : String :=
  if pyTruthy (dget d "Gender") && pyStartsWith "f" (pyLower (dgetD d "Gender" ""))
  then "s" else "h"

/-- `datetime.datetime.strptime(s, "%Y-%m-%dT%H:%M:%S").date()`: parses the
ACAD timestamp format, returning the date and `none` when the string does not
match the format (in which case `strptime` raises `ValueError`). -/
def parseDateTime (s : String) : Option (Nat × Nat × Nat) :=
  match pySplitChar 'T' s with
  | [ds, ts] =>
    match pySplitChar '-' ds, pySplitChar ':' ts with
    | [ys, mos, das], [hs, mis, ses] => do
      let toNum (x : String) : Option Nat :=
        if !x.data.isEmpty && x.data.all Char.isDigit then
          some (x.data.foldl (fun n c => n * 10 + (c.toNat - 48)) 0)
        else none
      let y ← toNum ys
      let mo ← toNum mos
      let da ← toNum das
      let h ← toNum hs
      let mi ← toNum mis
      let se ← toNum ses
      if 1 ≤ mo ∧ mo ≤ 12 ∧ 1 ≤ da ∧ da ≤ 31 ∧ h ≤ 23 ∧ mi ≤ 59 ∧ se ≤ 59 then
        some (y, mo, da)
      else none
    | _, _ => none
  | _ => none

/-- The `date_of_birth` argument of the BiologicalInfo creation: `strptime`
of a present (truthy) `DateofBirth` — raising `ValueError` when the string
does not match the format — and today's date when the field is absent. -/
def dobResult (today : Nat × Nat × Nat) (d : Details) :
    Except PyError (Nat × Nat × Nat) :=
  if pyTruthy (dget d "DateofBirth") then
    match parseDateTime (dgetD d "DateofBirth" "") with
    | some dt => Except.ok dt
    | none => Except.error (.valueError "time data does not match format")
  else Except.ok today

/-- The BiologicalInfo block of `populate_details`: the only raising step is
the `strptime` inside `dobResult`; the remaining fields are the pure
computations above. -/
def biologicalBlock (today : Nat × Nat × Nat) (p : Person) (d : Details) :
    Except PyError BiologicalInformation := do
  let blood_group := bloodGroupOf d
  let dob ← dobResult today d
  Except.ok { person := p.full_name
              date_of_birth := dob
              blood_group := blood_group
              sex := bioSex d
              gender := bioGender d
              pronoun := bioPronoun d
              impairment := "n" }

/-- The FinancialInfo block of `populate_details`. -/
def financialBlock (p : Person) : Except PyError FinancialInformation :=
  pure { person := p.full_name }

/-- The residence loop of the source over `residences.RESIDENCES` (passed in
as code/name pairs): `details['Bhawan']` is subscripted inside the loop, so
the `KeyError` for a missing key fires on the first iteration only. -/
def bhawanLookup (residencesT : List (String × String)) (d : Details)
    (acc : String) : Except PyError String :=
  match residencesT with
  | [] => .ok acc
  | rr :: rest => do
    let b ← ditem d "Bhawan"
    if pyLower rr.2 == pyLower b then .ok rr.1 else bhawanLookup rest d acc

/-- The ResidentialInfo block of `populate_details`: default residence code
`"nor"` (not a resident), room number defaulting to `"NIL"`. -/
def residentialBlock (residencesT : List (String × String)) (p : Person)
    (d : Details) : Except PyError ResidentialInformation := do
  let bhawan_code ← bhawanLookup residencesT d "nor"
  pure { person := p.full_name
         residence := bhawan_code
         room_number := dgetD d "RoomNo" "NIL" }

/-- The six sub-profile records created by one `populate_details` run; a
`none` component is a block whose `try` swallowed an exception. -/
structure Created where
  location : Option LocationInformation
  contact : Option ContactInformation
  political : Option PoliticalInformation
  biological : Option BiologicalInformation
  financial : Option FinancialInformation
  residential : Option ResidentialInformation
deriving DecidableEq, Repr

/-- The `try: ... except: pass` wrapper of each block of `populate_details`:
the block's outcome is demoted to an `Option` and the exception absorbed. -/
def tryPass {α : Type} (m : Except PyError α) : Except PyError (Option α) :=
  Except.ok m.toOption

/-- `populate_details(person_object, details)`: runs the six sub-profile
blocks in source order, each under its own `try: ... except: pass`. -/
def populate_details (countries categories residencesT : List (String × String))
    (today : Nat × Nat × Nat) (p : Person) (d : Details) : Except PyError Created := do
  let loc ← tryPass (locationBlock countries p d)
  let con ← tryPass (contactBlock p d)
  let pol ← tryPass (politicalBlock countries categories p d)
  let bio ← tryPass (biologicalBlock today p d)
  let fin ← tryPass (financialBlock p)
  let res ← tryPass (residentialBlock residencesT p d)
  pure ⟨loc, con, pol, bio, fin, res⟩

/-! ## Basic lemmas about the embedding -/

theorem ok_bind {ε α β : Type} (a : α) (f : α → Except ε β) :
    (Except.ok a >>= f) = f a := rfl

theorem error_bind {ε α β : Type} (e : ε) (f : α → Except ε β) :
    ((Except.error e : Except ε α) >>= f) = .error e := rfl

theorem toOption_eq_some {ε α : Type} (m : Except ε α) (a : α) :
    m.toOption = some a ↔ m = .ok a := by
  cases m <;> simp [Except.toOption]

/-- `populate_details` always succeeds and returns exactly the six per-block
outcomes, each demoted to an `Option` by its own `try: ... except: pass`. -/
theorem populate_details_blocks (cs cat rs : List (String × String))
    (today : Nat × Nat × Nat) (p : Person) (d : Details) :
    populate_details cs cat rs today p d =
      .ok ⟨(locationBlock cs p d).toOption, (contactBlock p d).toOption,
           (politicalBlock cs cat p d).toOption, (biologicalBlock today p d).toOption,
           (financialBlock p).toOption, (residentialBlock rs p d).toOption⟩ := rfl

/-- When the biological block succeeds, the stored fields are the pure
field computations of the source. -/
theorem biologicalBlock_ok_fields (today : Nat × Nat × Nat) (p : Person)
    (d : Details) (bio : BiologicalInformation)
    (h : biologicalBlock today p d = .ok bio) :
    bio.blood_group = bloodGroupOf d ∧ bio.sex = bioSex d
      ∧ bio.gender = bioGender d ∧ bio.pronoun = bioPronoun d := by
  unfold biologicalBlock at h
  cases hd : dobResult today d with
  | error e => rw [hd, error_bind] at h; exact absurd h (by simp)
  | ok dt =>
    rw [hd, ok_bind] at h
    injection h with h2
    subst h2
    exact ⟨rfl, rfl, rfl, rfl⟩

/-- A truthy `DateofBirth` that fails to parse aborts the biological block. -/
theorem biologicalBlock_malformed_dob (today : Nat × Nat × Nat) (p : Person)
    (d : Details) (h1 : pyTruthy (dget d "DateofBirth") = true)
    (h2 : parseDateTime (dgetD d "DateofBirth" "") = none) :
    (biologicalBlock today p d).toOption = none := by
  unfold biologicalBlock dobResult
  rw [if_pos h1, h2, error_bind]
  rfl

/-! ## Shared concrete inputs for the witnesses -/

def db0 : DB := {}

def today0 : Nat × Nat × Nat := (2020, 1, 1)

def p0 : Person := ⟨none, "P", []⟩

/-! ## Claims -/

/-- **C2 (counterexample).** The claim: for a faculty record whose
`IITREmailID` has the sub-address separator `'.'` before the sub-part —
`ab.1@iitr.ac.in` — `create_user` derives the username `abf1`.  In fact the
code keys on `'@'`, not `'.'`: after stripping the domain nothing follows the
`'@'`, so the local part `ab.1` is taken verbatim and no `'f'` re-encoding
happens. -/
theorem c2_counterexample :
    create_user none true [("IITREmailID", "ab.1@iitr.ac.in"), ("Name", "ab one")] db0 =
      (.ok (⟨some "ab.1"⟩, ⟨some ⟨some "ab.1"⟩, "Ab One", []⟩),
       { users := [⟨some "ab.1"⟩],
         persons := [⟨some ⟨some "ab.1"⟩, "Ab One", []⟩] })
    ∧ ("ab.1" : String) ≠ "abf1" := by decide

/-- **C2 (amended).** The `'f'` re-encoding applies only when a nonempty
remainder follows the `'@'` once the domain `iitr.ac.in` is stripped: the
subdomain-style address `ab@1.iitr.ac.in` derives `abf1` (remainder `1.`,
dots stripped, rejoined with a literal `'f'`), while `ab.1@iitr.ac.in`, whose
dot sits inside the local part, derives `ab.1` unchanged. -/
theorem c2_amended_username_encoding :
    deriveUsername none [("IITREmailID", "ab@1.iitr.ac.in")] = some "abf1"
    ∧ deriveUsername none [("IITREmailID", "ab.1@iitr.ac.in")] = some "ab.1" := by decide

/-- **C8.** For a faculty record whose `IITREmailID` is `ab@iitr.ac.in`
(no sub-address part), `create_user` derives the username `ab` and creates
the corresponding user and person. -/
theorem c8_no_subpart_username :
    create_user none true [("IITREmailID", "ab@iitr.ac.in"), ("Name", "ab cd")] db0 =
      (.ok (⟨some "ab"⟩, ⟨some ⟨some "ab"⟩, "Ab Cd", []⟩),
       { users := [⟨some "ab"⟩],
         persons := [⟨some ⟨some "ab"⟩, "Ab Cd", []⟩] }) := by decide

/-- **C5.** For a faculty record, a derived username that is missing or
longer than 15 characters makes `create_user` raise `ValueError` at once,
with the store untouched: no user and no person record is created. -/
theorem c5_faculty_invalid_username_raises (u : Option String) (d : Details) (db : DB)
    (h : deriveUsername u d = none ∨ 15 < ((deriveUsername u d).getD "").length) :
    create_user u true d db = (.error (.valueError "Username could not be fetched"), db) := by
  unfold create_user
  rw [if_pos]
  exact ⟨rfl, h⟩

/-- Witness for C5: a faculty record with no institute email and no username
argument is rejected and the store stays empty. -/
theorem c5_witness :
    create_user none true [] db0 = (.error (.valueError "Username could not be fetched"), db0) :=
  c5_faculty_invalid_username_raises none [] db0 (Or.inl (by decide))

/-- **C1.** `populate_details` never raises: for every person and details
dict it returns the six per-block outcomes, each computed independently of
the others, so the failure of one block never prevents the attempted creation
of another; in particular, a truthy `DateofBirth` that fails to parse aborts
only the biological block (`none`), while the other five components are
exactly what their own blocks produce. -/
theorem c1_populate_details_isolated (cs cat rs : List (String × String))
    (today : Nat × Nat × Nat) (p : Person) (d : Details) :
    populate_details cs cat rs today p d =
      .ok ⟨(locationBlock cs p d).toOption, (contactBlock p d).toOption,
           (politicalBlock cs cat p d).toOption, (biologicalBlock today p d).toOption,
           (financialBlock p).toOption, (residentialBlock rs p d).toOption⟩
    ∧ (pyTruthy (dget d "DateofBirth") = true →
       parseDateTime (dgetD d "DateofBirth" "") = none →
       (biologicalBlock today p d).toOption = none) :=
  ⟨populate_details_blocks cs cat rs today p d,
   fun h1 h2 => biologicalBlock_malformed_dob today p d h1 h2⟩

/-- Witness for C1: on a record whose `DateofBirth` is the unparseable
string `"bad"`, all five other sub-profiles are still created and only the
biological one is skipped. -/
theorem c1_witness :
    populate_details [] [] [] today0 p0 [("DateofBirth", "bad")] =
      .ok ⟨some ⟨"P", "", "", "", "IN"⟩, some ⟨"P", none, none, none, none⟩,
           some ⟨"P", "IN", "", "oth"⟩, none, some ⟨"P"⟩, some ⟨"P", "nor", "NIL"⟩⟩ := by
  rw [(c1_populate_details_isolated [] [] [] today0 p0 [("DateofBirth", "bad")]).1,
    (c1_populate_details_isolated [] [] [] today0 p0 [("DateofBirth", "bad")]).2
      (by decide) (by decide)]
  decide

/-- **C3 (counterexample).** The claim: semester code `"150"` yields
`current_year = 1`.  The code sets `current_year = int(sem_id[1])`, the digit
at index 1 of the code, which for `"150"` is `5`, not `1`. -/
theorem c3_counterexample :
    create_student today0
        [("SemesterID", "150"), ("EnrollmentNo", "12345"), ("ProgramID", "BT")]
        ⟨none, "John Doe", []⟩ { branches := ["BT"] } =
      .ok (⟨today0, "John Doe", 12345, "BT", 5, 9⟩, ⟨none, "John Doe", []⟩,
           { branches := ["BT"], students := [⟨today0, "John Doe", 12345, "BT", 5, 9⟩] })
    ∧ (5 : Int) ≠ 1 := by decide

/-- **C3 (amended).** For a student record whose `SemesterID` string is
`"150"`, `create_student` sets `current_year = 5` — the digit at index 1 of
the code — and `current_semester` per the formula `(year - 1) * 2 + half + 1`
with `year = 5` (index 1) and `half = 0` (index 2), i.e. `9`. -/
theorem c3_amended_sem150 (today : Nat × Nat × Nat) (data : Details) (p : Person)
    (db : DB) (s : Student) (p2 : Person) (db2 : DB)
    (hsem : dget data "SemesterID" = some "150")
    (hok : create_student today data p db = .ok (s, p2, db2)) :
    s.current_year = 5 ∧ s.current_semester = (5 - 1) * 2 + 0 + 1 := by
  unfold create_student at hok
  rw [show ditem data "SemesterID" = Except.ok "150" from by rw [ditem, hsem],
    ok_bind] at hok
  cases he : ditem data "EnrollmentNo" with
  | error e => rw [he, error_bind] at hok; exact absurd hok (by simp)
  | ok ev =>
    rw [he, ok_bind] at hok
    cases hv : pyInt ev with
    | error e => rw [hv, error_bind] at hok; exact absurd hok (by simp)
    | ok enrol =>
      rw [hv, ok_bind] at hok
      cases hpr : ditem data "ProgramID" with
      | error e => rw [hpr, error_bind] at hok; exact absurd hok (by simp)
      | ok prog =>
        rw [hpr, ok_bind] at hok
        cases hbr : branchGet db prog with
        | error e => rw [hbr, error_bind] at hok; exact absurd hok (by simp)
        | ok branch =>
          rw [hbr, ok_bind] at hok
          rw [show semYear "150" = Except.ok 5 from by decide, ok_bind] at hok
          rw [show semHalf "150" = Except.ok 0 from by decide, ok_bind] at hok
          simp only [Student.getItem, error_bind, pure, Except.pure,
            Except.ok.injEq, Prod.mk.injEq] at hok
          obtain ⟨hs, -⟩ := hok
          subst hs
          exact ⟨rfl, rfl⟩

/-- Witness for C3 (amended): the concrete student of the counterexample
record indeed carries year 5 and semester 9. -/
theorem c3_amended_witness :
    (⟨today0, "John Doe", 12345, "BT", 5, 9⟩ : Student).current_year = 5
    ∧ (⟨today0, "John Doe", 12345, "BT", 5, 9⟩ : Student).current_semester =
        (5 - 1) * 2 + 0 + 1 :=
  c3_amended_sem150 today0
    [("SemesterID", "150"), ("EnrollmentNo", "12345"), ("ProgramID", "BT")]
    ⟨none, "John Doe", []⟩ { branches := ["BT"] }
    ⟨today0, "John Doe", 12345, "BT", 5, 9⟩ ⟨none, "John Doe", []⟩
    { branches := ["BT"], students := [⟨today0, "John Doe", 12345, "BT", 5, 9⟩] }
    (by decide) (by decide)

/-- **C4.** Evaluation at a record that carries both guardian names: the
guardian block subscripts the `Student` model object (`student['Fathersname']`
raises `TypeError`) instead of the `data` dict, so the silent `except` always
fires — no parent `Person` is created (the store gains no person records and
the person keeps an empty `parents` list) while the student itself is still
saved. -/
theorem c4_guardians_never_created :
    create_student today0
        [("SemesterID", "150"), ("EnrollmentNo", "12345"), ("ProgramID", "BT"),
         ("Fathersname", "ram kumar"), ("MotherName", "sita devi")]
        ⟨none, "John Doe", []⟩ { branches := ["BT"] } =
      .ok (⟨today0, "John Doe", 12345, "BT", 5, 9⟩, ⟨none, "John Doe", []⟩,
           { branches := ["BT"], students := [⟨today0, "John Doe", 12345, "BT", 5, 9⟩] })
    ∧ (⟨none, "John Doe", []⟩ : Person).parents = [] := by decide

/-- A string whose lower-casing starts with `'f'` is nonempty. -/
theorem startsWithF_nonempty (v : String)
    (h : pyStartsWith "f" (pyLower v) = true) : v.data.isEmpty = false := by
  obtain ⟨l⟩ := v
  cases l with
  | nil => exact absurd h (by decide)
  | cons c cs => rfl

/-- **C6.** In the biological sub-profile created by `populate_details`, a
missing `BloodGroup` field yields blood group `O+`, and any value whose
normalisation (`(x or 'O+').upper().strip().replace(' ', '')`) is not one of
the eight valid groups also yields `O+`. -/
theorem c6_blood_group_defaults (cs cat rs : List (String × String))
    (today : Nat × Nat × Nat) (p : Person) (d : Details) (r : Created)
    (bio : BiologicalInformation)
    (hr : populate_details cs cat rs today p d = .ok r)
    (hb : r.biological = some bio) :
    (dget d "BloodGroup" = none → bio.blood_group = "O+")
    ∧ (∀ v, dget d "BloodGroup" = some v → normalizeBG v ∉ allBloodGroups →
        bio.blood_group = "O+") := by
  rw [populate_details_blocks] at hr
  cases Except.ok.inj hr
  have hb2 : (biologicalBlock today p d).toOption = some bio := hb
  have hf := biologicalBlock_ok_fields today p d bio ((toOption_eq_some _ _).mp hb2)
  refine ⟨fun hmiss => ?_, fun v hv hnot => ?_⟩
  · have h1 : dgetD d "BloodGroup" "O+" = "O+" := by rw [dgetD, hmiss]; rfl
    rw [hf.1]
    simp only [bloodGroupOf, h1]
    decide
  · have h1 : dgetD d "BloodGroup" "O+" = v := by rw [dgetD, hv]; rfl
    rw [hf.1]
    simp only [bloodGroupOf, h1]
    exact if_neg hnot

def bioC6 : BiologicalInformation := ⟨"P", today0, "O+", "male", "man", "h", "n"⟩

def rC6 : Created :=
  ⟨some ⟨"P", "", "", "", "IN"⟩, some ⟨"P", none, none, none, none⟩,
   some ⟨"P", "IN", "", "oth"⟩, some bioC6, some ⟨"P"⟩, some ⟨"P", "nor", "NIL"⟩⟩

/-- Witness for C6: the invalid blood group `"xq"` is stored as `O+`. -/
theorem c6_witness : bioC6.blood_group = "O+" :=
  (c6_blood_group_defaults [] [] [] today0 p0 [("BloodGroup", "xq")] rC6 bioC6
    (by decide) (by decide)).2 "xq" (by decide) (by decide)

/-- **C7.** In the biological sub-profile created by `populate_details`, a
missing `Gender` field yields `sex = "male"`, `gender = "man"`,
`pronoun = "h"`; a present value whose lower-casing starts with `'f'` yields
`gender = "woman"`, `pronoun = "s"`; a present value not starting with `'f'`
yields `gender = "man"`, `pronoun = "h"`. -/
theorem c7_gender_defaults (cs cat rs : List (String × String))
    (today : Nat × Nat × Nat) (p : Person) (d : Details) (r : Created)
    (bio : BiologicalInformation)
    (hr : populate_details cs cat rs today p d = .ok r)
    (hb : r.biological = some bio) :
    (dget d "Gender" = none →
      bio.sex = "male" ∧ bio.gender = "man" ∧ bio.pronoun = "h")
    ∧ (∀ v, dget d "Gender" = some v → pyStartsWith "f" (pyLower v) = true →
        bio.gender = "woman" ∧ bio.pronoun = "s")
    ∧ (∀ v, dget d "Gender" = some v → pyStartsWith "f" (pyLower v) = false →
        bio.gender = "man" ∧ bio.pronoun = "h") := by
  rw [populate_details_blocks] at hr
  cases Except.ok.inj hr
  have hb2 : (biologicalBlock today p d).toOption = some bio := hb
  obtain ⟨-, hsex, hgen, hpro⟩ :=
    biologicalBlock_ok_fields today p d bio ((toOption_eq_some _ _).mp hb2)
  refine ⟨fun hmiss => ?_, fun v hv hstart => ?_, fun v hv hnstart => ?_⟩
  · rw [hsex, hgen, hpro]
    simp [bioSex, bioGender, bioPronoun, pyTruthy, hmiss]
  · have hne := startsWithF_nonempty v hstart
    rw [hgen, hpro]
    simp [bioGender, bioPronoun, pyTruthy, dgetD, hv, hstart, hne]
  · rw [hgen, hpro]
    simp [bioGender, bioPronoun, pyTruthy, dgetD, hv, hnstart]

def bioC7 : BiologicalInformation := ⟨"P", today0, "O+", "female", "woman", "s", "n"⟩

def rC7 : Created :=
  ⟨some ⟨"P", "", "", "", "IN"⟩, some ⟨"P", none, none, none, none⟩,
   some ⟨"P", "IN", "", "oth"⟩, some bioC7, some ⟨"P"⟩, some ⟨"P", "nor", "NIL"⟩⟩

/-- Witness for C7: the value `"Female"` yields gender woman, pronoun s. -/
theorem c7_witness : bioC7.gender = "woman" ∧ bioC7.pronoun = "s" :=
  (c7_gender_defaults [] [] [] today0 p0 [("Gender", "Female")] rC7 bioC7
    (by decide) (by decide)).2.1 "Female" (by decide) (by decide)

/-- **C9.** `populate_location_info` and `populate_contact_info` never raise
and return a boolean: the location mapper always succeeds in this model,
the contact mapper fails exactly when `EmailID` or `IITREmailID` is missing,
and the country defaults to `"IN"` whenever no country name matches the
Nationality/Pcountry value case-insensitively. -/
theorem c9_populate_info_boolean (cs : List (String × String))
    (li : LocationInformation) (ci : ContactInformation) (d : Details) :
    (populate_location_info cs li d).2 = true
    ∧ ((populate_contact_info ci d).2 = false ↔
        (dget d "EmailID" = none ∨ dget d "IITREmailID" = none))
    ∧ ((∀ cv ∈ cs, pyLower cv.2 ≠ pyLower (locNationality d)) →
        (populate_location_info cs li d).1.country = "IN") := by
  refine ⟨rfl, ?_, fun hall => ?_⟩
  · cases he : dget d "EmailID" <;> cases hi : dget d "IITREmailID" <;>
      simp [populate_contact_info, contactBody, ditem, he, hi, error_bind, ok_bind]
  · show countryLookup cs (locNationality d) = "IN"
    unfold countryLookup
    have hnone : cs.find? (fun cv => pyLower cv.2 == pyLower (locNationality d)) = none :=
      List.find?_eq_none.mpr (fun cv hcv => by simpa using hall cv hcv)
    rw [hnone]

def countries0 : List (String × String) := [("US", "United States")]

def li0 : LocationInformation := { entity := "P" }

def ci0 : ContactInformation := { entity := "P" }

/-- Witness for C9: with no matching country name the stored country is `IN`. -/
theorem c9_witness : (populate_location_info countries0 li0 []).1.country = "IN" :=
  (c9_populate_info_boolean countries0 li0 ci0 []).2.2 (by decide)

/-- **C10.** When the details dict lacks `IITREmailID`,
`populate_contact_info` returns `False` and saves nothing — even when
`PRIEMAIL` is present — because `details['IITREmailID']` is evaluated
unconditionally as the default argument of the `PRIEMAIL` lookup. -/
theorem c10_contact_requires_iitr_email (ci : ContactInformation) (d : Details)
    (h : dget d "IITREmailID" = none) :
    populate_contact_info ci d = (ci, false) := by
  cases he : dget d "EmailID" <;>
    simp [populate_contact_info, contactBody, ditem, he, h, error_bind, ok_bind]

/-- Witness for C10: `PRIEMAIL` and `EmailID` present, `IITREmailID` absent —
no contact fields are saved and the mapper reports failure. -/
theorem c10_witness :
    populate_contact_info ci0
      [("PRIEMAIL", "someone@primary.test"), ("EmailID", "someone@other.test")] =
      (ci0, false) :=
  c10_contact_requires_iitr_email ci0
    [("PRIEMAIL", "someone@primary.test"), ("EmailID", "someone@other.test")]
    (by decide)
